import Mathlib

/-!
Shallow embedding of the gated-CRUD core of the digimenu repository
(`src/server/routes.ts`, the `DatabaseStorage` class and the shared
drizzle schema).  Database tables become lists inside a `Store` record,
each `DatabaseStorage` method becomes a pure function on `Store`, and
each route handler becomes a function from the store (plus the request
data) to a result value and the successor store.  Timestamps
(`createdAt` / `updatedAt`) are not modelled: no claim observes them.
-/

namespace DigiMenu

/-- Row of the `users` table (shared schema): plan is the text column
holding "free" or "premium"; the Stripe columns are nullable. -/
structure User where
  id : String
  email : String
  password : String
  plan : String
  stripeCustomerId : Option String := none
  stripeSubscriptionId : Option String := none
  subscriptionStatus : Option String := none
deriving DecidableEq, Repr

/-- Row of the `restaurants` table.  `userId` is the owning identity,
`slug` the unique public identifier. -/
structure Restaurant where
  id : String
  userId : String
  name : String
  description : Option String := none
  address : Option String := none
  phone : Option String := none
  logoUrl : Option String := none
  slug : String
deriving DecidableEq, Repr

/-- Row of the `categories` table. -/
structure Category where
  id : String
  restaurantId : String
  name : String
  order : Int := 0
deriving DecidableEq, Repr

/-- Row of the `products` table.  `categoryId` is the nullable
foreign key into `categories` declared with `onDelete: "set null"`;
`price` is the decimal column kept as its string form (no claim
computes on it). -/
structure Product where
  id : String
  restaurantId : String
  categoryId : Option String := none
  name : String
  description : Option String := none
  price : String
  imageUrl : Option String := none
  isActive : Bool := true
  order : Int := 0
deriving DecidableEq, Repr

/-- Row of the append-only `menu_views` table. -/
structure MenuView where
  restaurantId : String
  userAgent : Option String := none
  ipAddress : Option String := none
deriving DecidableEq, Repr

/-- The persistent store: one list per table. -/
structure Store where
  users : List User := []
  restaurants : List Restaurant := []
  categories : List Category := []
  products : List Product := []
  menuViews : List MenuView := []
deriving DecidableEq, Repr

/-! ### DatabaseStorage methods (src/unnamed/part_002) -/

/-- `DatabaseStorage.getUser`: select from users where id. -/
def getUser (s : Store) (id : String) : Option User :=
  s.users.find? (fun u => u.id == id)

/-- `DatabaseStorage.getUserByEmail`. -/
def getUserByEmail (s : Store) (email : String) : Option User :=
  s.users.find? (fun u => u.email == email)

/-- `DatabaseStorage.createUser`: insert returning the new row.  The
generated uuid primary key is passed in as `newId`. -/
def createUser (s : Store) (newId email password plan : String) : User × Store :=
  let u : User := { id := newId, email := email, password := password, plan := plan }
  (u, { s with users := s.users ++ [u] })

/-- The only `Partial<User>` patch the routes ever issue through
`DatabaseStorage.updateUser` is `{ stripeCustomerId }`. -/
structure UserPatch where
  stripeCustomerId : Option String := none
deriving DecidableEq, Repr

def applyUserPatch (d : UserPatch) (u : User) : User :=
  { u with stripeCustomerId :=
      match d.stripeCustomerId with
      | some c => some c
      | none => u.stripeCustomerId }

/-- `DatabaseStorage.updateUser`: update set data where id. -/
def updateUser (s : Store) (id : String) (d : UserPatch) : Store :=
  { s with users := s.users.map (fun u => if u.id == id then applyUserPatch d u else u) }

/-- `DatabaseStorage.updateUserStripeInfo`: persists both Stripe ids
and, in the same update, sets `plan: 'premium'` and
`subscriptionStatus: 'active'`. -/
def updateUserStripeInfo (s : Store) (id customerId subscriptionId : String) : Store :=
  { s with users := s.users.map (fun u =>
      if u.id == id then
        { u with stripeCustomerId := some customerId,
                 stripeSubscriptionId := some subscriptionId,
                 plan := "premium",
                 subscriptionStatus := some "active" }
      else u) }

/-- `DatabaseStorage.getRestaurantByUserId`. -/
def getRestaurantByUserId (s : Store) (userId : String) : Option Restaurant :=
  s.restaurants.find? (fun r => r.userId == userId)

/-- `DatabaseStorage.getRestaurantBySlug` (exact, case-sensitive match). -/
def getRestaurantBySlug (s : Store) (slug : String) : Option Restaurant :=
  s.restaurants.find? (fun r => r.slug == slug)

/-- `DatabaseStorage.createRestaurant`: insert returning.  The database
enforces the unique constraint on `slug` (shared schema:
`slug: text("slug").notNull().unique()`), so the insert fails when a
row with the same slug exists; the failure is modelled as `none`. -/
def createRestaurant (s : Store) (newId userId name slug : String) :
    Option (Restaurant × Store) :=
  if s.restaurants.any (fun r => r.slug == slug) then none
  else
    let r : Restaurant := { id := newId, userId := userId, name := name, slug := slug }
    some (r, { s with restaurants := s.restaurants ++ [r] })

/-- `DatabaseStorage.getCategoriesByRestaurant`: select where
restaurantId, ordered by `order` (a stable sort; ties keep insert
order, which is all the claims observe). -/
def getCategoriesByRestaurant (s : Store) (restaurantId : String) : List Category :=
  (s.categories.filter (fun c => c.restaurantId == restaurantId)).mergeSort
    (fun a b => a.order ≤ b.order)

/-- `DatabaseStorage.createCategory`. -/
def createCategory (s : Store) (newId restaurantId name : String) (order : Int) :
    Category × Store :=
  let c : Category := { id := newId, restaurantId := restaurantId, name := name, order := order }
  (c, { s with categories := s.categories ++ [c] })

/-- `DatabaseStorage.deleteCategory` together with the schema-level
foreign key `products.categoryId references categories.id onDelete set
null` (src/unnamed/part_001): the row is removed and every product
referencing it has its category reference nulled by the database. -/
def deleteCategory (s : Store) (id : String) : Store :=
  { s with
    categories := s.categories.filter (fun c => !(c.id == id)),
    products := s.products.map (fun p =>
      if p.categoryId == some id then { p with categoryId := none } else p) }

/-- `DatabaseStorage.getProduct`. -/
def getProduct (s : Store) (id : String) : Option Product :=
  s.products.find? (fun p => p.id == id)

/-- `DatabaseStorage.getProductsByRestaurant`: select where
restaurantId ordered by `order` (the `desc(createdAt)` tiebreaker is
not modelled, timestamps being absent; ordering is irrelevant to every
claim, which only observe membership). -/
def getProductsByRestaurant (s : Store) (restaurantId : String) : List Product :=
  (s.products.filter (fun p => p.restaurantId == restaurantId)).mergeSort
    (fun a b => a.order ≤ b.order)

/-- `DatabaseStorage.createProduct`: insert returning. -/
def createProduct (s : Store) (p : Product) : Product × Store :=
  (p, { s with products := s.products ++ [p] })

/-- A `Partial<Product>` from `insertProductSchema.partial()`:
`none` means the field is absent from the patch; for nullable columns
`some none` sets the column to null. -/
structure ProductPatch where
  categoryId : Option (Option String) := none
  name : Option String := none
  description : Option (Option String) := none
  price : Option String := none
  imageUrl : Option (Option String) := none
  isActive : Option Bool := none
  order : Option Int := none
deriving DecidableEq, Repr

def applyProductPatch (d : ProductPatch) (p : Product) : Product :=
  { p with
    categoryId := d.categoryId.getD p.categoryId,
    name := d.name.getD p.name,
    description := d.description.getD p.description,
    price := d.price.getD p.price,
    imageUrl := d.imageUrl.getD p.imageUrl,
    isActive := d.isActive.getD p.isActive,
    order := d.order.getD p.order }

/-- `DatabaseStorage.updateProduct`: update set data where id,
returning the updated row (the row matched by id, patched). -/
def updateProduct (s : Store) (id : String) (d : ProductPatch) :
    Store × Option Product :=
  ({ s with products := s.products.map (fun p =>
      if p.id == id then applyProductPatch d p else p) },
   (s.products.find? (fun p => p.id == id)).map (applyProductPatch d))

/-- `DatabaseStorage.deleteProduct`. -/
def deleteProduct (s : Store) (id : String) : Store :=
  { s with products := s.products.filter (fun p => !(p.id == id)) }

/-- `DatabaseStorage.getProductCount`: `select count(*) from products
where restaurantId = ? and isActive = true` — it counts only the
currently-active products of the tenant. -/
def getProductCount (s : Store) (restaurantId : String) : Nat :=
  (s.products.filter (fun p => p.restaurantId == restaurantId && p.isActive)).length

/-- `DatabaseStorage.recordMenuView`: append-only insert.  The `fails`
flag models the insert throwing (e.g. a database error); on failure
nothing is appended. -/
def recordMenuView (s : Store) (restaurantId : String)
    (userAgent ipAddress : Option String) (fails : Bool) : Option Store :=
  if fails then none
  else some { s with menuViews := s.menuViews ++
      [{ restaurantId := restaurantId, userAgent := userAgent, ipAddress := ipAddress }] }

/-- `DatabaseStorage.getMenuViewCount`. -/
def getMenuViewCount (s : Store) (restaurantId : String) : Nat :=
  (s.menuViews.filter (fun v => v.restaurantId == restaurantId)).length

/-! ### Slug derivation (`generateSlug`, routes.ts lines 115-122) -/

/-- The ASCII part of the JavaScript `\s` character class (and of the
whitespace set trimmed by `String.prototype.trim`); the claims exercise
only ASCII names, so the Unicode space characters are irrelevant here. -/
def jsIsSpace (c : Char) : Bool :=
  c == ' ' || c == '\t' || c == '\n' || c == '\r' || c == Char.ofNat 11 || c == Char.ofNat 12

/-- The character class `[a-z0-9\s-]` kept by the strip step. -/
def keepSlugChar (c : Char) : Bool :=
  ('a' ≤ c && c ≤ 'z') || ('0' ≤ c && c ≤ '9') || jsIsSpace c || c == '-'

/-- `str.replace(/X+/g, rep)` for a character class `X`: every maximal
run of characters satisfying `p` becomes the single character `rep`.
The boolean argument records whether the previous character was inside
a run. -/
def collapseRuns (p : Char → Bool) (rep : Char) : List Char → Bool → List Char
  | [], _ => []
  | c :: cs, inRun =>
    if p c then
      if inRun then collapseRuns p rep cs true
      else rep :: collapseRuns p rep cs true
    else c :: collapseRuns p rep cs false

/-- `String.prototype.trim`: remove whitespace from both ends. -/
def jsTrim (l : List Char) : List Char :=
  ((l.dropWhile jsIsSpace).reverse.dropWhile jsIsSpace).reverse

/-- The character pipeline of `generateSlug`:
`toLowerCase` (ASCII case mapping — a non-ASCII letter is left alone by
the Lean model where JavaScript would lower-case it, but either way the
following strip step deletes it), strip `[^a-z0-9\s-]`, replace `\s+`
globally with `'-'`, replace `-+` globally with `'-'`, then `trim()` —
which removes whitespace only, not hyphens. -/
def slugChars (l : List Char) : List Char :=
  jsTrim (collapseRuns (fun c => c == '-') '-'
    (collapseRuns jsIsSpace '-' ((l.map Char.toLower).filter keepSlugChar) false) false)

/-- `generateSlug` (routes.ts): the slug derivation applied to a name. -/
def generateSlug (name : String) : String :=
  (slugChars name.toList).asString

/-! ### Route handlers (routes.ts) -/

/-- Outcome of `POST /api/register`.  `slugConflict` is the catch
branch entered when `createRestaurant` is rejected by the slug
uniqueness constraint — note the user row inserted just before is not
rolled back (there is no transaction around the two inserts). -/
inductive RegisterResult where
  | ok (user : User) (restaurant : Restaurant)
  | emailInUse
  | slugConflict
deriving DecidableEq, Repr

/-- `POST /api/register`: check the email is free, insert the user
(plan "free", `hashed` standing for the bcrypt hash), derive the slug
and insert the restaurant.  `newUserId` / `newRestaurantId` stand for
the generated uuids. -/
def register (s : Store) (email hashed restaurantName newUserId newRestaurantId : String) :
    RegisterResult × Store :=
  match getUserByEmail s email with
  | some _ => (.emailInUse, s)
  | none =>
    let (u, s1) := createUser s newUserId email hashed "free"
    match createRestaurant s1 newRestaurantId u.id restaurantName (generateSlug restaurantName) with
    | some (r, s2) => (.ok u r, s2)
    | none => (.slugConflict, s1)

/-- The parsed body of a product-creation request
(`insertProductSchema`). -/
structure InsertProduct where
  categoryId : Option String := none
  name : String
  description : Option String := none
  price : String
  isActive : Bool := true
  order : Int := 0
deriving DecidableEq, Repr

/-- Outcome of `POST /api/products`. -/
inductive CreateProductResult where
  | ok (product : Product)
  | restaurantNotFound
  | planLimitExceeded
deriving DecidableEq, Repr

/-- `POST /api/products`: resolve the caller's restaurant; for a
free-plan caller compare `getProductCount` against 5 and reject with
the plan-limit message when the count is ≥ 5; otherwise map the
`"none"` category sentinel to null and insert.  `newId` stands for the
generated uuid, `imageUrl` for the uploaded file path (if any). -/
def postProducts (s : Store) (u : User) (d : InsertProduct)
    (newId : String) (imageUrl : Option String) : CreateProductResult × Store :=
  match getRestaurantByUserId s u.id with
  | none => (.restaurantNotFound, s)
  | some r =>
    if u.plan == "free" && decide (getProductCount s r.id ≥ 5) then
      (.planLimitExceeded, s)
    else
      let catId := if d.categoryId == some "none" then none else d.categoryId
      let (p, s1) := createProduct s
        { id := newId, restaurantId := r.id, categoryId := catId,
          name := d.name, description := d.description, price := d.price,
          imageUrl := imageUrl, isActive := d.isActive, order := d.order }
      (.ok p, s1)

/-- Outcome of `PUT /api/products/:id`.  `forbidden` is the 403
"Sem permissão" branch; the payload of `ok` is the row returned by
`updateProduct`. -/
inductive UpdateProductResult where
  | ok (product : Option Product)
  | productNotFound
  | forbidden
deriving DecidableEq, Repr

/-- `PUT /api/products/:id`: load the product (404 when absent),
resolve the caller's restaurant and reject with 403 unless the product
belongs to it, map the `"none"` category sentinel to null, set the
image path when a file was uploaded, and apply the patch.  No plan
limit is consulted on this path. -/
def putProduct (s : Store) (u : User) (id : String) (d : ProductPatch)
    (uploadedImage : Option String) : UpdateProductResult × Store :=
  match getProduct s id with
  | none => (.productNotFound, s)
  | some p =>
    match getRestaurantByUserId s u.id with
    | none => (.forbidden, s)
    | some r =>
      if p.restaurantId == r.id then
        let d1 := if d.categoryId == some (some "none") then { d with categoryId := some none } else d
        let d2 := match uploadedImage with
          | some f => { d1 with imageUrl := some (some f) }
          | none => d1
        let (s1, updated) := updateProduct s id d2
        (.ok updated, s1)
      else (.forbidden, s)

/-- Outcome of `DELETE /api/products/:id`. -/
inductive DeleteProductResult where
  | ok
  | productNotFound
  | forbidden
deriving DecidableEq, Repr

/-- `DELETE /api/products/:id`: same ownership gate as the update
route, then a hard delete. -/
def deleteProductRoute (s : Store) (u : User) (id : String) :
    DeleteProductResult × Store :=
  match getProduct s id with
  | none => (.productNotFound, s)
  | some p =>
    match getRestaurantByUserId s u.id with
    | none => (.forbidden, s)
    | some r =>
      if p.restaurantId == r.id then (.ok, deleteProduct s id)
      else (.forbidden, s)

/-- Outcome of `GET /api/menu/:slug`.  `serverError` is the catch
branch (status 500): the route `await`s `recordMenuView` inside its
`try`, so a throw from the insert aborts the handler before the
projection is sent. -/
inductive MenuResult where
  | ok (restaurant : Restaurant) (activeProducts : List Product) (menuCategories : List Category)
  | notFound
  | serverError
deriving DecidableEq, Repr

/-- `GET /api/menu/:slug`: resolve by slug (404 when absent), fetch
products and categories, record the view — a failure there is caught
and turned into a 500 with nothing inserted — then respond with the
restaurant, the products filtered to `isActive`, and all categories. -/
def getPublicMenu (s : Store) (slug : String) (userAgent ipAddress : Option String)
    (recordFails : Bool) : MenuResult × Store :=
  match getRestaurantBySlug s slug with
  | none => (.notFound, s)
  | some r =>
    let prods := getProductsByRestaurant s r.id
    let cats := getCategoriesByRestaurant s r.id
    match recordMenuView s r.id userAgent ipAddress recordFails with
    | none => (.serverError, s)
    | some s1 => (.ok r (prods.filter (fun p => p.isActive)) cats, s1)

/-- `n` sequential `GET /api/menu/:slug` requests (each one succeeding,
i.e. with the view insert not failing), threading the store. -/
def iterMenu (s : Store) (slug : String) (userAgent ipAddress : Option String) :
    Nat → Store
  | 0 => s
  | n + 1 => iterMenu (getPublicMenu s slug userAgent ipAddress false).2 slug userAgent ipAddress n

/-! ### Billing bridge (`POST /api/create-subscription`)

The external billing provider is modelled after its interface in the
spec (§6): create-customer, create-price, create-subscription returning
an id and client token, retrieve-subscription by id.  Generated ids are
drawn from a counter. -/

/-- A subscription held by the external provider. -/
structure StripeSubscription where
  id : String
  clientSecret : Option String
deriving DecidableEq, Repr

/-- The external provider's state: the objects created so far plus an
id counter. -/
structure StripeState where
  customers : List String := []
  stripeProducts : List String := []
  prices : List String := []
  subscriptions : List StripeSubscription := []
  nextId : Nat := 0
deriving DecidableEq, Repr

/-- `stripe.subscriptions.retrieve`. -/
def stripeRetrieve (st : StripeState) (id : String) : Option StripeSubscription :=
  st.subscriptions.find? (fun x => x.id == id)

def freshId (tag : String) (n : Nat) : String := tag ++ toString n

/-- Outcome of `POST /api/create-subscription` (the `beginUpgrade`
operation of the spec).  `retrieveFailed` is the 500 produced when the
re-fetch of a recorded subscription throws (that call sits outside the
route's `try`); `noEmail` is the thrown invariant violation for a
missing email. -/
inductive UpgradeResult where
  | ok (subscriptionId : String) (clientSecret : Option String)
  | notAuthenticated
  | retrieveFailed
  | noEmail
deriving DecidableEq, Repr

/-- `POST /api/create-subscription`: the session user is re-read from
storage (passport's `deserializeUser`).  With a recorded subscription
id the route only re-fetches it and replies; otherwise it creates a
customer, persists the customer id, creates a Stripe product, a
monthly price, and an incomplete subscription, persists both ids via
`updateUserStripeInfo`, and replies with the subscription id and
client secret. -/
def beginUpgrade (s : Store) (st : StripeState) (userId : String) :
    UpgradeResult × Store × StripeState :=
  match getUser s userId with
  | none => (.notAuthenticated, s, st)
  | some u =>
    match u.stripeSubscriptionId with
    | some sid =>
      match stripeRetrieve st sid with
      | some sub => (.ok sub.id sub.clientSecret, s, st)
      | none => (.retrieveFailed, s, st)
    | none =>
      if u.email == "" then (.noEmail, s, st)
      else
        let custId := freshId "cus_" st.nextId
        let st1 := { st with customers := st.customers ++ [custId], nextId := st.nextId + 1 }
        let s1 := updateUser s userId { stripeCustomerId := some custId }
        let prodId := freshId "prod_" st1.nextId
        let st2 := { st1 with stripeProducts := st1.stripeProducts ++ [prodId],
                              nextId := st1.nextId + 1 }
        let priceId := freshId "price_" st2.nextId
        let st3 := { st2 with prices := st2.prices ++ [priceId], nextId := st2.nextId + 1 }
        let subId := freshId "sub_" st3.nextId
        let secret := freshId "secret_" st3.nextId
        let sub : StripeSubscription := { id := subId, clientSecret := some secret }
        let st4 := { st3 with subscriptions := st3.subscriptions ++ [sub],
                              nextId := st3.nextId + 1 }
        let s2 := updateUserStripeInfo s1 userId custId subId
        (.ok sub.id sub.clientSecret, s2, st4)

/-! ### Concrete fixtures used to instantiate the theorems -/

/-- A free-plan identity. -/
def uFree : User := { id := "u1", email := "a@x", password := "h", plan := "free" }

/-- A premium-plan identity. -/
def uPrem : User := { id := "u2", email := "b@x", password := "h", plan := "premium" }

/-- The tenant owned by `uFree`. -/
def rOne : Restaurant := { id := "r1", userId := "u1", name := "Nome A", slug := "nome-a" }

/-- The tenant owned by `uPrem`. -/
def rTwo : Restaurant := { id := "r2", userId := "u2", name := "Nome B", slug := "nome-b" }

/-- A product of tenant `r1` with a chosen id and active flag. -/
def prodFix (i : String) (active : Bool) : Product :=
  { id := i, restaurantId := "r1", name := "P" ++ i, price := "10.00", isActive := active }

/-- Two tenants; `r1` holds five active products and one inactive one,
plus one (empty) category. -/
def fixStore : Store :=
  { users := [uFree, uPrem],
    restaurants := [rOne, rTwo],
    categories := [{ id := "c1", restaurantId := "r1", name := "Bebidas" }],
    products := [prodFix "p1" true, prodFix "p2" true, prodFix "p3" true,
                 prodFix "p4" true, prodFix "p5" true, prodFix "p6" false] }

/-- A store with one tenant and no products, below the plan limit. -/
def smallStore : Store :=
  { users := [uFree], restaurants := [rOne] }

/-- The name from the spec's slug example, apostrophe included. -/
def joesDiner : String := "Joe" ++ (Char.ofNat 39).toString ++ "s Diner  "

/-- A product of tenant `r1` referencing category `c1`. -/
def prodWithCat : Product :=
  { id := "p9", restaurantId := "r1", categoryId := some "c1",
    name := "Suco", description := some "Natural", price := "8.00" }

/-- Store for the category-deletion claim: one category, one product in
it, one product outside it. -/
def catStore : Store :=
  { users := [uFree],
    restaurants := [rOne],
    categories := [{ id := "c1", restaurantId := "r1", name := "Bebidas" }],
    products := [prodWithCat, prodFix "p1" true] }

/-- The store produced by one successful registration from the empty
store. -/
def regStore : Store := (register {} "a@x" "h" "Nome A" "u1" "r1").2

/-- A patch that only activates a product. -/
def activatePatch : ProductPatch := { isActive := some true }

/-! ### General helper lemmas -/

/-- An update that patches exactly the rows matched by `q` and does not
change whether a row matches commutes with `find? q`. -/
theorem find?_map_ite {α : Type} (l : List α) (q : α → Bool) (f : α → α)
    (hf : ∀ a, q (f a) = q a) :
    (l.map (fun a => if q a then f a else a)).find? q = (l.find? q).map f := by
  induction l with
  | nil => rfl
  | cons a t ih =>
    by_cases h : q a = true
    · rw [List.map_cons, if_pos h, List.find?_cons_of_pos _ (by rw [hf]; exact h),
        List.find?_cons_of_pos _ h, Option.map_some']
    · rw [List.map_cons, if_neg h, List.find?_cons_of_neg _ (by simpa using h),
        List.find?_cons_of_neg _ (by simpa using h), ih]

/-- Row lookup after `updateUser`. -/
theorem getUser_updateUser (s : Store) (uid : String) (d : UserPatch) :
    getUser (updateUser s uid d) uid = (getUser s uid).map (applyUserPatch d) :=
  find?_map_ite s.users _ _ (fun _ => rfl)

/-- Row lookup after `updateUserStripeInfo`. -/
theorem getUser_updateUserStripeInfo (s : Store) (uid customerId subscriptionId : String) :
    getUser (updateUserStripeInfo s uid customerId subscriptionId) uid =
      (getUser s uid).map (fun u =>
        { u with stripeCustomerId := some customerId,
                 stripeSubscriptionId := some subscriptionId,
                 plan := "premium",
                 subscriptionStatus := some "active" }) :=
  find?_map_ite s.users _ _ (fun _ => rfl)

/-- Mapping a function that keeps matching rows matching cannot lower
the number of rows matched by `pr`. -/
theorem countP_le_countP_map {α : Type} (l : List α) (f : α → α) (pr : α → Bool)
    (h : ∀ a ∈ l, pr a = true → pr (f a) = true) :
    l.countP pr ≤ (l.map f).countP pr := by
  induction l with
  | nil => simp
  | cons a t ih =>
    rw [List.map_cons, List.countP_cons, List.countP_cons]
    have ht := ih (fun x hx hpx => h x (List.mem_cons_of_mem _ hx) hpx)
    by_cases hpa : pr a = true
    · rw [if_pos hpa, if_pos (h a (List.mem_cons_self a t) hpa)]; omega
    · rw [if_neg hpa]
      by_cases hfa : pr (f a) = true
      · rw [if_pos hfa]; omega
      · rw [if_neg hfa]; omega

/-- As above, and strictly when some non-matching row is mapped to a
matching one. -/
theorem countP_lt_countP_map {α : Type} (l : List α) (f : α → α) (pr : α → Bool)
    (h : ∀ a ∈ l, pr a = true → pr (f a) = true)
    (a0 : α) (ha0 : a0 ∈ l) (h0 : pr a0 = false) (h1 : pr (f a0) = true) :
    l.countP pr < (l.map f).countP pr := by
  induction l with
  | nil => cases ha0
  | cons a t ih =>
    rw [List.map_cons, List.countP_cons, List.countP_cons]
    rcases List.mem_cons.mp ha0 with rfl | hmem
    · have ht := countP_le_countP_map t f pr (fun x hx => h x (List.mem_cons_of_mem _ hx))
      rw [if_neg (by simp [h0]), if_pos h1]; omega
    · have ht := ih (fun x hx => h x (List.mem_cons_of_mem _ hx)) hmem
      by_cases hpa : pr a = true
      · rw [if_pos hpa, if_pos (h a (List.mem_cons_self a t) hpa)]; omega
      · rw [if_neg hpa]
        by_cases hfa : pr (f a) = true
        · rw [if_pos hfa]; omega
        · rw [if_neg hfa]; omega

/-- `getProductCount` as a `countP`. -/
theorem getProductCount_eq_countP (s : Store) (restaurantId : String) :
    getProductCount s restaurantId =
      s.products.countP (fun p => p.restaurantId == restaurantId && p.isActive) :=
  (List.countP_eq_length_filter _ _).symm

/-! ### Lemmas on the slug pipeline -/

/-- Every character emitted by `collapseRuns` is the replacement
character or a source character outside the collapsed class. -/
theorem mem_collapseRuns {p : Char → Bool} {rep : Char} :
    ∀ {l : List Char} {b : Bool} {c : Char}, c ∈ collapseRuns p rep l b →
      c = rep ∨ (c ∈ l ∧ p c = false) := by
  intro l
  induction l with
  | nil => intro b c hc; simp [collapseRuns] at hc
  | cons a t ih =>
    intro b c hc
    unfold collapseRuns at hc
    by_cases hp : p a = true
    · rw [if_pos hp] at hc
      rcases b with _ | _
      · rw [if_neg (by simp)] at hc
        rcases List.mem_cons.mp hc with rfl | hc'
        · exact Or.inl rfl
        · rcases ih hc' with h | ⟨hm, hf⟩
          · exact Or.inl h
          · exact Or.inr ⟨List.mem_cons_of_mem _ hm, hf⟩
      · rw [if_pos rfl] at hc
        rcases ih hc with h | ⟨hm, hf⟩
        · exact Or.inl h
        · exact Or.inr ⟨List.mem_cons_of_mem _ hm, hf⟩
    · rw [if_neg hp] at hc
      rcases List.mem_cons.mp hc with rfl | hc'
      · exact Or.inr ⟨List.mem_cons_self _ _, by simpa using hp⟩
      · rcases ih hc' with h | ⟨hm, hf⟩
        · exact Or.inl h
        · exact Or.inr ⟨List.mem_cons_of_mem _ hm, hf⟩

/-- Inside a run, the next emitted character is outside the class. -/
theorem collapseRuns_head_notP (p : Char → Bool) (rep : Char) :
    ∀ (l : List Char), ∀ y ∈ (collapseRuns p rep l true).head?, p y = false := by
  intro l
  induction l with
  | nil => intro y hy; simp [collapseRuns] at hy
  | cons a t ih =>
    intro y hy
    unfold collapseRuns at hy
    by_cases hp : p a = true
    · rw [if_pos hp, if_pos rfl] at hy
      exact ih y hy
    · rw [if_neg hp] at hy
      simp only [List.head?_cons, Option.mem_def, Option.some.injEq] at hy
      subst hy
      simpa using hp

/-- After collapsing, no two adjacent characters are both in the
collapsed class. -/
theorem chain'_collapseRuns {p : Char → Bool} {rep : Char} :
    ∀ (l : List Char) (b : Bool),
      List.Chain' (fun a c => ¬(p a = true ∧ p c = true)) (collapseRuns p rep l b) := by
  intro l
  induction l with
  | nil => intro b; simp [collapseRuns]
  | cons a t ih =>
    intro b
    unfold collapseRuns
    by_cases hp : p a = true
    · rw [if_pos hp]
      rcases b with _ | _
      · rw [if_neg (by simp)]
        refine List.chain'_cons'.mpr ⟨?_, ih true⟩
        intro y hy hcontra
        have := collapseRuns_head_notP p rep t y hy
        rw [this] at hcontra
        exact Bool.false_ne_true hcontra.2
      · rw [if_pos rfl]
        exact ih true
    · rw [if_neg hp]
      refine List.chain'_cons'.mpr ⟨?_, ih false⟩
      intro y hy hcontra
      exact hp hcontra.1

/-- The property the amended slug contract guarantees for every output
character: a lower-case ASCII letter, a digit, or a hyphen. -/
def slugCharOK (c : Char) : Prop :=
  ('a' ≤ c ∧ c ≤ 'z') ∨ ('0' ≤ c ∧ c ≤ '9') ∨ c = '-'

/-- No admissible slug character is whitespace. -/
theorem slugCharOK_not_space {c : Char} (h : slugCharOK c) : jsIsSpace c = false := by
  by_contra hs
  rw [Bool.not_eq_false] at hs
  have hcases : c = ' ' ∨ c = '\t' ∨ c = '\n' ∨ c = '\r' ∨ c = Char.ofNat 11 ∨ c = Char.ofNat 12 := by
    simpa [jsIsSpace, Bool.or_eq_true, beq_iff_eq, or_assoc] using hs
  rcases hcases with rfl | rfl | rfl | rfl | rfl | rfl <;>
    rcases h with ⟨h1, h2⟩ | ⟨h1, h2⟩ | h1 <;> revert h1 <;> decide

/-- Characters surviving the strip step and the whitespace collapse are
admissible. -/
theorem collapseWs_ok (l : List Char) (b : Bool) :
    ∀ c ∈ collapseRuns jsIsSpace '-' (l.filter keepSlugChar) b, slugCharOK c := by
  intro c hc
  rcases mem_collapseRuns hc with rfl | ⟨hmem, hns⟩
  · exact Or.inr (Or.inr rfl)
  · have hk : keepSlugChar c = true := (List.mem_filter.mp hmem).2
    unfold keepSlugChar at hk
    rw [hns] at hk
    simp only [Bool.or_false, Bool.or_eq_true, Bool.and_eq_true, decide_eq_true_eq,
      beq_iff_eq] at hk
    rcases hk with (h | h) | h
    · exact Or.inl h
    · exact Or.inr (Or.inl h)
    · exact Or.inr (Or.inr h)

/-- Characters of the fully collapsed pipeline output are admissible. -/
theorem collapsed_ok (l : List Char) :
    ∀ c ∈ collapseRuns (fun x => x == '-') '-'
        (collapseRuns jsIsSpace '-' (l.filter keepSlugChar) false) false, slugCharOK c := by
  intro c hc
  rcases mem_collapseRuns hc with rfl | ⟨hmem, _⟩
  · exact Or.inr (Or.inr rfl)
  · exact collapseWs_ok l false c hmem

/-- `dropWhile` is the identity on a list whose members all fail the
predicate. -/
theorem dropWhile_eq_self_of_none {α : Type} (p : α → Bool) (l : List α)
    (h : ∀ c ∈ l, p c = false) : l.dropWhile p = l := by
  cases l with
  | nil => rfl
  | cons a t => rw [List.dropWhile_cons_of_neg]; simp [h a (List.mem_cons_self a t)]

/-- `trim()` is the identity on a string without whitespace. -/
theorem jsTrim_eq_self (l : List Char) (h : ∀ c ∈ l, jsIsSpace c = false) :
    jsTrim l = l := by
  unfold jsTrim
  rw [dropWhile_eq_self_of_none _ l h]
  rw [dropWhile_eq_self_of_none _ l.reverse (fun c hc => h c (List.mem_reverse.mp hc))]
  exact List.reverse_reverse l

/-- The final `trim()` of `generateSlug` never removes anything: by the
time it runs, every whitespace character has already been replaced by a
hyphen. -/
theorem slugChars_eq_collapsed (l : List Char) :
    slugChars l = collapseRuns (fun x => x == '-') '-'
      (collapseRuns jsIsSpace '-' ((l.map Char.toLower).filter keepSlugChar) false) false := by
  unfold slugChars
  exact jsTrim_eq_self _ (fun c hc => slugCharOK_not_space (collapsed_ok _ c hc))

/-! ### Claim theorems -/

/-- Claim C1: for a free-plan identity owning a tenant, product creation
succeeds exactly when the tenant's currently-active product count is
below 5; at a count of 5 or more it is rejected with the plan-limit
error and the store is left unchanged (nothing inserted); a
premium-plan identity is never rejected for the plan-limit reason,
whatever the count. -/
theorem c1_free_plan_limit (s : Store) (u : User) (r : Restaurant) (d : InsertProduct)
    (newId : String) (img : Option String)
    (hr : getRestaurantByUserId s u.id = some r) :
    (u.plan = "free" →
      ((∃ p s1, postProducts s u d newId img = (.ok p, s1)) ↔ getProductCount s r.id < 5) ∧
      (5 ≤ getProductCount s r.id → postProducts s u d newId img = (.planLimitExceeded, s))) ∧
    (u.plan = "premium" → (postProducts s u d newId img).1 ≠ .planLimitExceeded) := by
  refine ⟨fun hfree => ⟨?_, fun h5 => ?_⟩, fun hprem => ?_⟩
  · by_cases h5 : 5 ≤ getProductCount s r.id
    · simp [postProducts, hr, hfree, h5]
    · simp [postProducts, hr, hfree, h5, createProduct]
      omega
  · simp [postProducts, hr, hfree, h5]
  · simp [postProducts, hr, hprem, createProduct]

/-- Witness for C1: a concrete free-plan tenant with zero active
products is allowed to create a product. -/
theorem c1_free_plan_limit_witness :
    getRestaurantByUserId smallStore uFree.id = some rOne ∧ uFree.plan = "free" ∧
    ((∃ p s1, postProducts smallStore uFree { name := "X", price := "1.00" } "p1" none = (.ok p, s1))
      ↔ getProductCount smallStore rOne.id < 5) :=
  ⟨by decide, by decide,
    ((c1_free_plan_limit smallStore uFree rOne { name := "X", price := "1.00" } "p1" none
      (by decide)).1 (by decide)).1⟩

/-- First call of the billing bridge for an identity without a recorded
subscription: the route creates one customer, one Stripe product, one
price and one subscription, and persists both ids (flipping the plan)
via `updateUserStripeInfo`. -/
theorem beginUpgrade_fresh (s : Store) (st : StripeState) (uid : String) (u : User)
    (hu : getUser s uid = some u) (hsub : u.stripeSubscriptionId = none)
    (hemail : u.email ≠ "") :
    beginUpgrade s st uid =
      (.ok (freshId "sub_" (st.nextId + 3)) (some (freshId "secret_" (st.nextId + 3))),
       updateUserStripeInfo
         (updateUser s uid { stripeCustomerId := some (freshId "cus_" st.nextId) })
         uid (freshId "cus_" st.nextId) (freshId "sub_" (st.nextId + 3)),
       { st with
           customers := st.customers ++ [freshId "cus_" st.nextId],
           stripeProducts := st.stripeProducts ++ [freshId "prod_" (st.nextId + 1)],
           prices := st.prices ++ [freshId "price_" (st.nextId + 2)],
           subscriptions := st.subscriptions ++
             [{ id := freshId "sub_" (st.nextId + 3),
                clientSecret := some (freshId "secret_" (st.nextId + 3)) }],
           nextId := st.nextId + 4 }) := by
  have hne : (u.email == "") = false := by simpa using hemail
  simp [beginUpgrade, hu, hsub, hne]

/-- A call of the billing bridge for an identity whose recorded
subscription id is held by the provider only re-fetches it: same id
back, no state change on either side. -/
theorem beginUpgrade_second (s : Store) (st : StripeState) (uid : String) (u : User)
    (sub : StripeSubscription)
    (hu : getUser s uid = some u)
    (hsid : u.stripeSubscriptionId = some sub.id)
    (hmem : sub ∈ st.subscriptions) :
    ∃ cs, beginUpgrade s st uid = (.ok sub.id cs, s, st) := by
  have hsome : (st.subscriptions.find? (fun x => x.id == sub.id)).isSome := by
    rw [List.find?_isSome]
    exact ⟨sub, hmem, by simp⟩
  obtain ⟨x, hx⟩ := Option.isSome_iff_exists.mp hsome
  have hxid : x.id = sub.id := by simpa using List.find?_some hx
  refine ⟨x.clientSecret, ?_⟩
  simp [beginUpgrade, hu, hsid, stripeRetrieve, hx, hxid]

/-- Claim C3: `beginUpgrade` is idempotent: starting from an identity
with no recorded subscription, a first call returns a subscription id,
and a second call re-fetches that subscription and returns the same
subscription id while changing neither the store nor the external
provider's state (no second customer, Stripe product, price or
subscription is created). -/
theorem c3_upgrade_idempotent (s : Store) (st : StripeState) (uid : String) (u : User)
    (hu : getUser s uid = some u)
    (hsub : u.stripeSubscriptionId = none)
    (hemail : u.email ≠ "") :
    ∃ sid cs1 cs2 s1 st1,
      beginUpgrade s st uid = (.ok sid cs1, s1, st1) ∧
      beginUpgrade s1 st1 uid = (.ok sid cs2, s1, st1) := by
  have h1 := beginUpgrade_fresh s st uid u hu hsub hemail
  have hg : getUser
      (updateUserStripeInfo
        (updateUser s uid { stripeCustomerId := some (freshId "cus_" st.nextId) })
        uid (freshId "cus_" st.nextId) (freshId "sub_" (st.nextId + 3))) uid
      = some { u with stripeCustomerId := some (freshId "cus_" st.nextId),
                      stripeSubscriptionId := some (freshId "sub_" (st.nextId + 3)),
                      plan := "premium", subscriptionStatus := some "active" } := by
    rw [getUser_updateUserStripeInfo, getUser_updateUser, hu]
    rfl
  obtain ⟨cs2, h2⟩ := beginUpgrade_second
    (updateUserStripeInfo
      (updateUser s uid { stripeCustomerId := some (freshId "cus_" st.nextId) })
      uid (freshId "cus_" st.nextId) (freshId "sub_" (st.nextId + 3)))
    { st with
        customers := st.customers ++ [freshId "cus_" st.nextId],
        stripeProducts := st.stripeProducts ++ [freshId "prod_" (st.nextId + 1)],
        prices := st.prices ++ [freshId "price_" (st.nextId + 2)],
        subscriptions := st.subscriptions ++
          [{ id := freshId "sub_" (st.nextId + 3),
             clientSecret := some (freshId "secret_" (st.nextId + 3)) }],
        nextId := st.nextId + 4 }
    uid _
    ⟨freshId "sub_" (st.nextId + 3), some (freshId "secret_" (st.nextId + 3))⟩ hg rfl
    (by simp)
  exact ⟨freshId "sub_" (st.nextId + 3), some (freshId "secret_" (st.nextId + 3)), cs2, _, _,
    h1, h2⟩

/-- Witness for C3 at a concrete identity and an empty provider state. -/
theorem c3_upgrade_idempotent_witness :
    getUser smallStore "u1" = some uFree ∧
    ∃ sid cs1 cs2 s1 st1,
      beginUpgrade smallStore {} "u1" = (.ok sid cs1, s1, st1) ∧
      beginUpgrade s1 st1 "u1" = (.ok sid cs2, s1, st1) :=
  ⟨by decide, c3_upgrade_idempotent smallStore {} "u1" uFree (by decide) (by decide) (by decide)⟩

/-- Claim C4 (violated by the code): `beginUpgrade` for an identity
without a recorded subscription does persist the Stripe ids, but
`updateUserStripeInfo` flips the plan to "premium" (and the
subscription status to "active") in the very same update, before any
external payment confirmation: the plan does not keep its pre-call
value "free". -/
theorem c4_plan_flipped_immediately :
    (getUser smallStore "u1").map User.plan = some "free" ∧
    (getUser (beginUpgrade smallStore {} "u1").2.1 "u1").map User.plan = some "premium" ∧
    (getUser (beginUpgrade smallStore {} "u1").2.1 "u1").map User.subscriptionStatus =
      some (some "active") ∧
    (getUser (beginUpgrade smallStore {} "u1").2.1 "u1").map User.stripeSubscriptionId =
      some (some "sub_3") ∧
    (getUser (beginUpgrade smallStore {} "u1").2.1 "u1").map User.stripeCustomerId =
      some (some "cus_0") := by decide

/-- Claim C2: an authenticated identity owning tenant `r` cannot update
or delete a product of another tenant: both routes answer with the 403
ownership denial and leave the store (hence the product) unchanged,
regardless of the caller's plan. -/
theorem c2_cross_tenant_denied (s : Store) (u : User) (r : Restaurant) (p : Product)
    (pid : String) (d : ProductPatch) (img : Option String)
    (hp : getProduct s pid = some p)
    (hr : getRestaurantByUserId s u.id = some r)
    (hx : p.restaurantId ≠ r.id) :
    putProduct s u pid d img = (.forbidden, s) ∧
    deleteProductRoute s u pid = (.forbidden, s) := by
  have hbeq : (p.restaurantId == r.id) = false := by simpa using hx
  constructor
  · simp [putProduct, hp, hr, hbeq]
  · simp [deleteProductRoute, hp, hr, hbeq]

/-- Witness for C2: a premium identity owning tenant `r2` is denied on a
product of tenant `r1`. -/
theorem c2_cross_tenant_denied_witness :
    getProduct fixStore "p1" = some (prodFix "p1" true) ∧
    getRestaurantByUserId fixStore uPrem.id = some rTwo ∧
    putProduct fixStore uPrem "p1" activatePatch none = (.forbidden, fixStore) ∧
    deleteProductRoute fixStore uPrem "p1" = (.forbidden, fixStore) := by
  refine ⟨by decide, by decide, ?_, ?_⟩
  · exact (c2_cross_tenant_denied fixStore uPrem rTwo (prodFix "p1" true) "p1" activatePatch
      none (by decide) (by decide) (by decide)).1
  · exact (c2_cross_tenant_denied fixStore uPrem rTwo (prodFix "p1" true) "p1" activatePatch
      none (by decide) (by decide) (by decide)).2

/-- Claim C5: for a stored tenant resolved by slug, the public
projection returns exactly the tenant's active products (a product is
in the result iff it is in the store, owned by the tenant, and active)
and all of the tenant's categories, whether or not they contain an
active product. -/
theorem c5_public_projection (s : Store) (slug : String) (ua ip : Option String)
    (r : Restaurant) (hr : getRestaurantBySlug s slug = some r) :
    ∃ prods cats s1,
      getPublicMenu s slug ua ip false = (.ok r prods cats, s1) ∧
      (∀ p : Product, p ∈ prods ↔ p ∈ s.products ∧ p.restaurantId = r.id ∧ p.isActive = true) ∧
      (∀ c : Category, c ∈ cats ↔ c ∈ s.categories ∧ c.restaurantId = r.id) := by
  refine ⟨(getProductsByRestaurant s r.id).filter (fun p => p.isActive),
          getCategoriesByRestaurant s r.id,
          { s with menuViews := s.menuViews ++
              [{ restaurantId := r.id, userAgent := ua, ipAddress := ip }] }, ?_, ?_, ?_⟩
  · simp [getPublicMenu, hr, recordMenuView]
  · intro p
    simp only [List.mem_filter, getProductsByRestaurant, List.mem_mergeSort, beq_iff_eq]
    tauto
  · intro c
    simp only [getCategoriesByRestaurant, List.mem_mergeSort, List.mem_filter, beq_iff_eq]

/-- Witness for C5 on a concrete tenant with five active products, one
inactive product and one empty category. -/
theorem c5_public_projection_witness :
    getRestaurantBySlug fixStore "nome-a" = some rOne ∧
    ∃ prods cats s1,
      getPublicMenu fixStore "nome-a" none none false = (.ok rOne prods cats, s1) ∧
      (∀ p : Product, p ∈ prods ↔ p ∈ fixStore.products ∧ p.restaurantId = rOne.id ∧
        p.isActive = true) ∧
      (∀ c : Category, c ∈ cats ↔ c ∈ fixStore.categories ∧ c.restaurantId = rOne.id) :=
  ⟨by decide, c5_public_projection fixStore "nome-a" none none rOne (by decide)⟩

/-- Claim C6 counterexample: the claimed contract trims leading and
trailing hyphens, predicting `"joes-diner"` for the spec's example, but
`generateSlug` ends in `trim()` — which strips whitespace, of which
none remains — so the trailing hyphen produced from the trailing spaces
survives. -/
theorem c6_slug_counterexample :
    generateSlug joesDiner = "joes-diner-" ∧ generateSlug joesDiner ≠ "joes-diner" := by
  decide

/-- Claim C6 amended: slug derivation is the pure function that
lower-cases the name, strips every character outside `[a-z0-9\s-]`,
collapses whitespace runs to a single hyphen and collapses hyphen runs
to one; the final `trim()` removes only whitespace — a no-op at that
point — so edge hyphens are kept: every output character is a
lower-case ASCII letter, a digit or a hyphen, no two adjacent output
characters are both hyphens, and the spec's example maps to
`"joes-diner-"`. -/
theorem c6_slug_pipeline_amended :
    (∀ name : String, ∀ c ∈ (generateSlug name).toList, slugCharOK c) ∧
    (∀ name : String,
      List.Chain' (fun a b => ¬(a = '-' ∧ b = '-')) (generateSlug name).toList) ∧
    generateSlug joesDiner = "joes-diner-" := by
  refine ⟨?_, ?_, by decide⟩
  · intro name c hc
    have he : (generateSlug name).toList = slugChars name.toList := rfl
    rw [he, slugChars_eq_collapsed] at hc
    exact collapsed_ok _ c hc
  · intro name
    have he : (generateSlug name).toList = slugChars name.toList := rfl
    rw [he, slugChars_eq_collapsed]
    refine (chain'_collapseRuns _ false).imp ?_
    intro a b hab hcontra
    exact hab ⟨by simp [hcontra.1], by simp [hcontra.2]⟩

/-- With the view insert succeeding, the menu route only appends one
view row for the resolved tenant. -/
theorem getPublicMenu_success_store (s : Store) (slug : String) (ua ip : Option String)
    (r : Restaurant) (hr : getRestaurantBySlug s slug = some r) :
    (getPublicMenu s slug ua ip false).2 =
      { s with menuViews := s.menuViews ++
          [{ restaurantId := r.id, userAgent := ua, ipAddress := ip }] } := by
  simp [getPublicMenu, hr, recordMenuView]

/-- Claim C7 amended: each successful `getPublicMenu` call appends
exactly one view record for the resolved tenant — `n` sequential
successful calls raise the tenant's view count by exactly `n` — but a
failure of the view-recording step is not fire-and-forget: the route
answers with the 500 catch branch instead of the projection, leaving
the store unchanged. -/
theorem c7_view_count_and_failure (s : Store) (slug : String) (ua ip : Option String)
    (r : Restaurant) (hr : getRestaurantBySlug s slug = some r) :
    (∀ n : Nat, getMenuViewCount (iterMenu s slug ua ip n) r.id =
      getMenuViewCount s r.id + n) ∧
    getPublicMenu s slug ua ip true = (.serverError, s) := by
  constructor
  · have key : ∀ (n : Nat) (s0 : Store), getRestaurantBySlug s0 slug = some r →
        getMenuViewCount (iterMenu s0 slug ua ip n) r.id = getMenuViewCount s0 r.id + n := by
      intro n
      induction n with
      | zero => intro s0 _; simp [iterMenu]
      | succ m ih =>
        intro s0 h0
        rw [iterMenu, getPublicMenu_success_store s0 slug ua ip r h0,
          ih { s0 with menuViews := s0.menuViews ++
                [{ restaurantId := r.id, userAgent := ua, ipAddress := ip }] } h0]
        simp [getMenuViewCount, List.filter_append]
        omega
    exact fun n => key n s hr
  · simp [getPublicMenu, hr, recordMenuView]

/-- Witness for C7's amended theorem: three sequential calls on a
concrete store raise the view count by three. -/
theorem c7_view_count_and_failure_witness :
    getRestaurantBySlug fixStore "nome-a" = some rOne ∧
    getMenuViewCount (iterMenu fixStore "nome-a" none none 3) rOne.id =
      getMenuViewCount fixStore rOne.id + 3 :=
  ⟨by decide, (c7_view_count_and_failure fixStore "nome-a" none none rOne (by decide)).1 3⟩

/-- Claim C7 counterexample: on a concrete store whose slug resolves, a
failing view insert makes the route answer the 500 catch branch — the
projection response is not returned, refuting the fire-and-forget part
of the claim. -/
theorem c7_record_failure_counterexample :
    (getRestaurantBySlug fixStore "nome-a").isSome = true ∧
    getPublicMenu fixStore "nome-a" none none true = (.serverError, fixStore) := by
  decide

/-- Claim C8: deleting a category removes no product: every product
that referenced the category survives with its category reference
nulled and every other field unchanged, the product list keeps its
length, and the category itself is gone. -/
theorem c8_delete_category_nulls (s : Store) (cid : String) (p : Product)
    (hp : p ∈ s.products) (hcat : p.categoryId = some cid) :
    { p with categoryId := none } ∈ (deleteCategory s cid).products ∧
    (deleteCategory s cid).products.length = s.products.length ∧
    ∀ c ∈ (deleteCategory s cid).categories, c.id ≠ cid := by
  refine ⟨?_, ?_, ?_⟩
  · simp only [deleteCategory]
    refine List.mem_map.mpr ⟨p, hp, ?_⟩
    rw [if_pos (by simp [hcat])]
  · simp [deleteCategory]
  · intro c hc
    simp only [deleteCategory, List.mem_filter] at hc
    simpa using hc.2

/-- Witness for C8 on a concrete store: the product of the deleted
category survives with a null reference. -/
theorem c8_delete_category_nulls_witness :
    prodWithCat ∈ catStore.products ∧ prodWithCat.categoryId = some "c1" ∧
    { prodWithCat with categoryId := none } ∈ (deleteCategory catStore "c1").products :=
  ⟨by decide, by decide,
    (c8_delete_category_nulls catStore "c1" prodWithCat (by decide) (by decide)).1⟩

/-- Claim C9 amended: registration is not atomic.  The user row is
inserted before the restaurant row with no surrounding transaction, so
when the restaurant insert is rejected by the slug uniqueness
constraint the route answers 400 but keeps the already-inserted
identity: afterwards an identity for the submitted email exists while
no tenant owned by it does, breaking the claimed equivalence. -/
theorem c9_registration_not_atomic (s : Store) (email hashed name uid rid : String)
    (hfresh : getUserByEmail s email = none)
    (hclash : s.restaurants.any (fun r => r.slug == generateSlug name) = true)
    (hnores : getRestaurantByUserId s uid = none) :
    ∃ s1, register s email hashed name uid rid = (.slugConflict, s1) ∧
      (getUserByEmail s1 email).map User.id = some uid ∧
      getRestaurantByUserId s1 uid = none ∧
      s1.restaurants = s.restaurants := by
  refine ⟨{ s with users := s.users ++
      [{ id := uid, email := email, password := hashed, plan := "free" }] }, ?_, ?_, ?_, rfl⟩
  · simp [register, hfresh, createUser, createRestaurant, hclash]
  · have hfind : s.users.find? (fun u => u.email == email) = none := hfresh
    simp only [getUserByEmail, List.find?_append, hfind, Option.none_or]
    simp
  · exact hnores

/-- Witness for C9's amended theorem at a concrete clashing
registration. -/
theorem c9_registration_not_atomic_witness :
    getUserByEmail regStore "b@x" = none ∧
    ∃ s1, register regStore "b@x" "h" "Nome A" "u2" "r2" = (.slugConflict, s1) ∧
      (getUserByEmail s1 "b@x").map User.id = some "u2" ∧
      getRestaurantByUserId s1 "u2" = none ∧
      s1.restaurants = regStore.restaurants :=
  ⟨by decide, c9_registration_not_atomic regStore "b@x" "h" "Nome A" "u2" "r2"
    (by decide) (by decide) (by decide)⟩

/-- Claim C9 counterexample: after a first successful registration, a
second attempt with a fresh email but a slug-clashing restaurant name
fails tenant creation yet leaves the new identity behind: an identity
record for the email exists while no tenant owned by it does. -/
theorem c9_atomicity_counterexample :
    (register regStore "b@x" "h" "Nome A" "u2" "r2").1 = .slugConflict ∧
    (getUserByEmail (register regStore "b@x" "h" "Nome A" "u2" "r2").2 "b@x").map User.id
      = some "u2" ∧
    getRestaurantByUserId (register regStore "b@x" "h" "Nome A" "u2" "r2").2 "u2" = none := by
  decide

/-- Claim C10: the free-plan product limit is enforced only at
creation.  A free-plan identity whose tenant already has five or more
active products can set an inactive product of that tenant to active
through the update route: the update succeeds (there is no plan-limit
branch on that path) and the tenant's active-product count afterwards
exceeds five. -/
theorem c10_update_bypasses_plan_limit (s : Store) (u : User) (r : Restaurant) (p : Product)
    (pid : String) (d : ProductPatch)
    (_hplan : u.plan = "free")
    (hp : getProduct s pid = some p)
    (hr : getRestaurantByUserId s u.id = some r)
    (hown : p.restaurantId = r.id)
    (hinact : p.isActive = false)
    (hcount : 5 ≤ getProductCount s r.id)
    (hact : d.isActive = some true)
    (hcat : d.categoryId ≠ some (some "none")) :
    putProduct s u pid d none = (.ok (some (applyProductPatch d p)), (updateProduct s pid d).1) ∧
    5 < getProductCount (updateProduct s pid d).1 r.id := by
  have hcatb : (d.categoryId == some (some "none")) = false := by simpa using hcat
  have hbeq : (p.restaurantId == r.id) = true := by simp [hown]
  have hfind : s.products.find? (fun q => q.id == pid) = some p := hp
  have hpid : (p.id == pid) = true := by simpa using List.find?_some hfind
  constructor
  · simp [putProduct, hp, hr, hbeq, hcatb, updateProduct, hfind]
  · have hcount' : 5 ≤ s.products.countP (fun q => q.restaurantId == r.id && q.isActive) := by
      rw [← getProductCount_eq_countP]; exact hcount
    have hlt := countP_lt_countP_map s.products
      (fun q => if q.id == pid then applyProductPatch d q else q)
      (fun q => q.restaurantId == r.id && q.isActive)
      ?mono p (List.mem_of_find?_eq_some hfind) ?h0 ?h1
    case mono =>
      intro a _ hpa
      simp only [Bool.and_eq_true] at hpa
      by_cases hid : (a.id == pid) = true
      · simp [hid, applyProductPatch, hact, hpa.1]
      · simp [hid, hpa.1, hpa.2]
    case h0 => simp [hinact]
    case h1 => simp [hpid, applyProductPatch, hact, hown]
    rw [getProductCount_eq_countP]
    simp only [updateProduct]
    omega

/-- Witness for C10 on a concrete free-plan tenant sitting at five
active products: activating its sixth, inactive product goes through
the update route and lifts the active count past the limit. -/
theorem c10_update_bypasses_plan_limit_witness :
    uFree.plan = "free" ∧ 5 ≤ getProductCount fixStore rOne.id ∧
    putProduct fixStore uFree "p6" activatePatch none =
      (.ok (some (applyProductPatch activatePatch (prodFix "p6" false))),
       (updateProduct fixStore "p6" activatePatch).1) ∧
    5 < getProductCount (updateProduct fixStore "p6" activatePatch).1 rOne.id := by
  have h := c10_update_bypasses_plan_limit fixStore uFree rOne (prodFix "p6" false) "p6"
    activatePatch (by decide) (by decide) (by decide) (by decide) (by decide) (by decide)
    (by decide) (by decide)
  exact ⟨by decide, by decide, h.1, h.2⟩

end DigiMenu
